import Mathlib

/-!
Shallow embedding of the Reed scraper module of JobSpy
(`jobspy/reed/__init__.py`, `jobspy/reed/util.py`, `jobspy/reed/constant.py`).

Python `str` becomes `String`; an optional/possibly-missing JSON field becomes
`Option _`; Python truthiness on a string `s` is `s ≠ ""`, on an `Option` it is
`isSome` combined with the truthiness of the payload, and on an integer it is
`≠ 0`.  Python's `float` cast of an integral salary is modelled by the exact
cast into `ℚ` (the salaries in scope are integers, on which the cast is
value-preserving).  Exceptions are modelled with `Except`: the body of a
`try` block is a function into `Except Exn _` and the handlers are a `match`
on its result.
-/

set_option autoImplicit false

namespace Reed

/-! ### Constants (`jobspy/reed/constant.py`) -/

def REED_BASE_URL : String := "https://www.reed.co.uk/api/1.0"

def REED_MAX_RESULTS_PER_PAGE : Nat := 100

def REED_MAX_DISTANCE : Nat := 100

def REED_REMOTE_PATTERNS : List String :=
  ["remote", "work from home", "wfh", "home based", "anywhere in uk",
   "location flexible"]

/-! ### Data model (shared `jobspy.model` schema, as used by this module) -/

/-- Country of a location.  Only `Country.UK` is ever produced by this module. -/
inductive Country where
  | uk
  deriving DecidableEq, Repr

/-- Compensation interval.  Only `YEARLY` is ever produced by this module. -/
inductive CompensationInterval where
  | yearly
  deriving DecidableEq, Repr

/-- The job-type enum values this module inspects (full-time / part-time /
contract / temporary, per the spec's data model). -/
inductive JobType where
  | full_time
  | part_time
  | contract
  | temporary
  deriving DecidableEq, Repr

structure Location where
  city : String
  state : Option String
  country : Country
  deriving DecidableEq, Repr

/-- Amounts `min_amount` / `max_amount` are Python floats; modelled in `ℚ` (the module
only ever casts integer salaries, on which the cast is exact). -/
structure Compensation where
  min_amount : Option ℚ
  max_amount : Option ℚ
  currency : String
  interval : CompensationInterval
  deriving DecidableEq, Repr

/-- A raw vendor record (`job_data : dict`).  Fields the code reads; a missing
JSON key is `none`. -/
structure RawJob where
  jobId : Option Nat := none
  jobTitle : Option String := none
  employerName : Option String := none
  locationName : Option String := none
  minimumSalary : Option Int := none
  maximumSalary : Option Int := none
  jobDescription : Option String := none
  externalUrl : Option String := none
  deriving DecidableEq, Repr

/-- The normalized posting (`JobPost`).  `date_posted` is a date in the code;
it is always `None` in this module, so its payload type is abstract (`Nat`). -/
structure JobPost where
  id : String
  title : String
  company_name : String
  job_url : String
  job_url_direct : String
  location : Option Location
  description : Option String
  compensation : Option Compensation
  date_posted : Option Nat
  job_type : Option (List JobType)
  is_remote : Bool
  deriving DecidableEq, Repr

/-! ### String primitives

Python's string methods, written by structural recursion on the character
list so that they evaluate inside the kernel. -/

/-- Model of Python `str.strip()`: drop whitespace from both ends. -/
def pyStrip (s : String) : String :=
  String.mk
    (((s.data.dropWhile Char.isWhitespace).reverse.dropWhile
        Char.isWhitespace).reverse)

/-- Model of Python `str.lower()`. -/
def pyLower (s : String) : String :=
  String.mk (s.data.map Char.toLower)

/-- Model of Python `sep.join(xs)` for `sep = " "`. -/
def pyJoinSpace (xs : List String) : String :=
  String.mk (List.intercalate [' '] (xs.map String.data))

/-- Occurrence of `pat` anywhere in `s`, on character lists. -/
def containsSub (pat : List Char) : List Char → Bool
  | [] => pat.isEmpty
  | c :: rest => pat.isPrefixOf (c :: rest) || containsSub pat rest

/-- Model of Python `str.split(sep)` for the one-character separator `sep`: split at
every occurrence; `"".split(sep) = [""]`. -/
def splitOnChar (sep : Char) : List Char → List (List Char)
  | [] => [[]]
  | c :: rest =>
    match splitOnChar sep rest with
    | [] => [[]]
    | s :: ss => if c = sep then [] :: s :: ss else (c :: s) :: ss

/-! ### `jobspy/reed/util.py` -/

/-- Model of Python's `pat in s` substring test. -/
def strContains (s pat : String) : Bool :=
  containsSub pat.data s.data

/-- Embeds `is_job_remote(location_name, description)`. -/
def is_job_remote (location_name description : Option String) : Bool :=
  let locTruthy := match location_name with
    | some l => l != ""
    | none => false
  let descTruthy := match description with
    | some d => d != ""
    | none => false
  if !locTruthy && !descTruthy then false
  else
    let text_to_check :=
      (if locTruthy then [pyLower (location_name.getD "")] else []) ++
      (if descTruthy then [pyLower (description.getD "")] else [])
    let combined_text := pyJoinSpace text_to_check
    REED_REMOTE_PATTERNS.any (fun pattern => strContains combined_text pattern)

/-- Embeds `parse_location(location_name)`.  Note: Python `location_name.split(",")`
splits on EVERY comma; `parts[1]` is the second comma-separated segment, not
the whole remainder after the first comma. -/
def parse_location (location_name : Option String) : Option Location :=
  match location_name with
  | none => none
  | some s =>
    if s = "" then none
    else
      let t := pyStrip s
      let parts := (splitOnChar ',' t.data).map String.mk
      let city := pyStrip (parts.headD t)
      let state := match parts with
        | _ :: p1 :: _ => some (pyStrip p1)
        | _ => none
      some { city := city, state := state, country := Country.uk }

/-- The outgoing query-parameter dictionary built by
`format_reed_search_params`.  The key set is fixed, so the dict is modelled as
a structure with one `Option` field per possibly-present key (`none` = key
absent).  The final Python dict comprehension dropping `None` values is a
no-op: no branch ever stores `None`. -/
structure ReedParams where
  resultsToTake : Nat
  resultsToSkip : Nat
  distanceFromLocation : Nat
  keywords : Option String
  locationName : Option String
  fullTime : Option String
  partTime : Option String
  contractParam : Option String
  temp : Option String
  permanent : Option String
  deriving DecidableEq, Repr

/-- Embeds `format_reed_search_params(...)`.  `hours_old` is accepted and never read
(the source only mentions it in a comment). -/
def format_reed_search_params (keywords location_name : Option String)
    (distance : Nat) (is_remote : Bool) (job_type : Option JobType)
    (hours_old : Option Nat) (results_to_take results_to_skip : Nat) :
    ReedParams :=
  { resultsToTake := min results_to_take 100
    resultsToSkip := results_to_skip
    distanceFromLocation := min distance 100
    keywords := match keywords with
      | some k => if k ≠ "" then some k else none
      | none => none
    locationName := match location_name with
      | some l => if l ≠ "" ∧ ¬ is_remote then some l else none
      | none => none
    fullTime := if job_type = some JobType.full_time then some "true" else none
    partTime := if job_type = some JobType.part_time then some "true" else none
    contractParam := if job_type = some JobType.contract then some "true" else none
    temp := if job_type = some JobType.temporary then some "true" else none
    permanent := if job_type = some JobType.full_time then some "true" else none }

/-! ### `ReedScraper._parse_job` -/

/-- Stand-in for Python's process-seeded `hash(title)` in the fallback URL for
id-less records.  No property depends on its value; any fixed deterministic
function is a faithful model of one process's seed. -/
def pyHash (s : String) : Nat :=
  s.data.foldl (fun a c => (a * 31 + c.toNat) % 2 ^ 64) 0

/-- Embeds `float(x) if x else None` applied to an optional integer salary:
Python truthiness sends both `None` and `0` to `None`. -/
def salaryAmount (x : Option Int) : Option ℚ :=
  match x with
  | some n => if n ≠ 0 then some (n : ℚ) else none
  | none => none

/-- Embeds `ReedScraper._parse_job(job_data)`.  The method body cannot raise in this
pure model (its `try` never fails here), so the `except` handler returning
`None` has no arm; the explicit `return None` for a blank title is the `none`
branch. -/
def parse_job (job_data : RawJob) : Option JobPost :=
  let job_id := match job_data.jobId with
    | some n => toString n
    | none => ""
  let title := pyStrip (job_data.jobTitle.getD "")
  let company_name := pyStrip (job_data.employerName.getD "")
  if title = "" then none
  else
    let job_url :=
      if job_id ≠ "" then "https://www.reed.co.uk/jobs/" ++ job_id
      else "https://www.reed.co.uk/jobs/unknown-" ++ toString (pyHash title)
    let job_url_direct := match job_data.externalUrl with
      | some u => if u ≠ "" then u else job_url
      | none => job_url
    let location := parse_location job_data.locationName
    let compensation :=
      if job_data.minimumSalary.isSome ∨ job_data.maximumSalary.isSome then
        some { min_amount := salaryAmount job_data.minimumSalary
               max_amount := salaryAmount job_data.maximumSalary
               currency := "GBP"
               interval := CompensationInterval.yearly }
      else none
    let job_type_list : List JobType := []
    let description := pyStrip (job_data.jobDescription.getD "")
    let date_posted : Option Nat := none
    let remote_check := is_job_remote job_data.locationName (some description)
    some { id := job_id
           title := title
           company_name := company_name
           job_url := job_url
           job_url_direct := job_url_direct
           location := location
           description := if description ≠ "" then some description else none
           compensation := compensation
           date_posted := date_posted
           job_type := if job_type_list ≠ [] then some job_type_list else none
           is_remote := remote_check }

/-! ### `ReedScraper._fetch_jobs` -/

/-- Shape of the decoded JSON body of one search response. -/
inductive RBody where
  /-- `response.json()` raises (body is not valid JSON). -/
  | malformed
  /-- A bare JSON list of records. -/
  | jlist (xs : List RawJob)
  /-- A JSON object with a `results` key holding a list of records. -/
  | jdictResults (xs : List RawJob)
  /-- A JSON object with a `results` key holding a non-sequence value, on
  which `len(jobs)` raises `TypeError`. -/
  | jdictResultsBad
  /-- Any other JSON shape (object without `results`, string, number, ...). -/
  | otherShape
  deriving DecidableEq, Repr

/-- What the network produced for one page request. -/
inductive Response where
  /-- `session.get` raised a `requests.exceptions.RequestException`
  (connection error, timeout, ...). -/
  | transportError
  /-- An HTTP response with the given status code and decoded body. -/
  | ok (status : Nat) (body : RBody)
  deriving DecidableEq, Repr

/-- The kind of exception escaping the `try` body of `_fetch_jobs`:
a `requests.exceptions.RequestException` (matched by the first handler) or
anything else (matched by the second, `except Exception`). -/
inductive Exn where
  | requestExn
  | otherExn
  deriving DecidableEq, Repr

/-- The `try` body of `_fetch_jobs`, as a function into `Except`.
`format_reed_search_params` is total and cannot raise; `raise_for_status`
raises `HTTPError` (a `RequestException`) for status ≥ 400; `response.json()`
raises on a malformed body; `len(jobs)` raises `TypeError` when `results`
holds a non-sequence. -/
def fetch_jobs_attempt (resp : Response) : Except Exn (List RawJob) :=
  match resp with
  | Response.transportError => Except.error Exn.requestExn
  | Response.ok status body =>
    if 400 ≤ status then Except.error Exn.requestExn
    else match body with
      | RBody.malformed => Except.error Exn.requestExn
      | RBody.jlist xs => Except.ok xs
      | RBody.jdictResults xs => Except.ok xs
      | RBody.jdictResultsBad => Except.error Exn.otherExn
      | RBody.otherShape => Except.ok []

/-- Embeds `ReedScraper._fetch_jobs`: the `try` body with both `except` handlers,
each of which returns `None`. -/
def fetch_jobs (resp : Response) : Option (List RawJob) :=
  match fetch_jobs_attempt resp with
  | Except.error _ => none
  | Except.ok xs => some xs

/-! ### `ReedScraper.scrape` -/

/-- The `for job_data in jobs_batch` loop of `scrape`: parse each record,
append successes, count them, and break as soon as the wanted count is
reached.  Returns the updated `(total_fetched, job_list)`. -/
def processBatch (results_wanted : Nat) :
    Nat → List JobPost → List RawJob → Nat × List JobPost
  | total_fetched, job_list, [] => (total_fetched, job_list)
  | total_fetched, job_list, job_data :: rest =>
    match parse_job job_data with
    | some job_post =>
      let total' := total_fetched + 1
      let list' := job_list ++ [job_post]
      if results_wanted ≤ total' then (total', list')
      else processBatch results_wanted total' list' rest
    | none => processBatch results_wanted total_fetched job_list rest

/-- The `while total_fetched < results_wanted` loop of `scrape`.  The vendor's
replies are scripted as a list consumed one per request; an exhausted script
behaves like a transport failure (the loop stops and returns the accumulator
either way). -/
def scrapeLoop (results_wanted results_per_page : Nat) :
    List (Option (List RawJob)) → Nat → Nat → List JobPost → List JobPost
  | [], _, _, job_list => job_list
  | jobs_batch? :: rest, total_fetched, results_to_skip, job_list =>
    if results_wanted ≤ total_fetched then job_list
    else
      let current_page_size :=
        min results_per_page (results_wanted - total_fetched)
      match jobs_batch? with
      | none => job_list
      | some jobs_batch =>
        if jobs_batch.isEmpty then job_list
        else
          let r := processBatch results_wanted total_fetched job_list jobs_batch
          if jobs_batch.length < current_page_size then r.2
          else
            scrapeLoop results_wanted results_per_page rest r.1
              (results_to_skip + jobs_batch.length) r.2

/-- Embeds `ReedScraper.scrape(scraper_input)`, returning the `jobs` list of the
`JobResponse`.  `scraper_input.results_wanted or 15` and
`scraper_input.offset or 0` use Python truthiness: an explicit `0` counts as
unset.  `responses` scripts what the network returns for the successive page
requests. -/
def scrape (results_wanted? offset? : Option Nat) (responses : List Response) :
    List JobPost :=
  let results_wanted := match results_wanted? with
    | some n => if n ≠ 0 then n else 15
    | none => 15
  let results_per_page := min 100 results_wanted
  let results_to_skip := match offset? with
    | some n => if n ≠ 0 then n else 0
    | none => 0
  scrapeLoop results_wanted results_per_page (responses.map fetch_jobs) 0
    results_to_skip []

/-! ### Sample records used to instantiate the theorems -/

/-- A well-formed vendor record (no salary fields, so its posting carries no
`ℚ` values and evaluates cheaply). -/
def goodJob : RawJob :=
  { jobId := some 123, jobTitle := some "Engineer",
    employerName := some "Acme",
    locationName := some "Manchester, Greater Manchester" }

/-- A record whose title is blank after trimming. -/
def blankTitleJob : RawJob :=
  { jobId := some 7, jobTitle := some "   " }

/-- A record whose minimum salary is the integer `0` (Python-falsy). -/
def zeroSalaryJob : RawJob :=
  { jobTitle := some "Engineer", minimumSalary := some 0 }

/-- A record with only a minimum salary. -/
def salaryJob : RawJob :=
  { jobTitle := some "Engineer", minimumSalary := some 30000 }

/-! ### Theorems -/

/-- Helper: a record whose title is blank after trimming is dropped. -/
theorem parse_job_blank (job_data : RawJob)
    (ht : pyStrip (job_data.jobTitle.getD "") = "") :
    parse_job job_data = none := by
  simp only [parse_job]
  rw [if_pos ht]

/-- Helper: the fields of a posting produced by `_parse_job`, as functions of
the raw record. -/
theorem parse_job_some_fields (job_data : RawJob) (p : JobPost)
    (h : parse_job job_data = some p) :
    p.title = pyStrip (job_data.jobTitle.getD "") ∧ p.title ≠ "" ∧
    p.compensation =
      (if job_data.minimumSalary.isSome ∨ job_data.maximumSalary.isSome then
        some { min_amount := salaryAmount job_data.minimumSalary
               max_amount := salaryAmount job_data.maximumSalary
               currency := "GBP"
               interval := CompensationInterval.yearly }
      else none) ∧
    p.job_type = none ∧ p.date_posted = none := by
  by_cases ht : pyStrip (job_data.jobTitle.getD "") = ""
  · rw [parse_job_blank job_data ht] at h
    cases h
  · simp only [parse_job] at h
    rw [if_neg ht] at h
    injection h with h
    subst h
    exact ⟨rfl, ht, rfl, by simp, rfl⟩

/-- Helper: evaluates `float(x) if x else None` on a present salary. -/
theorem salaryAmount_some (n : Int) :
    salaryAmount (some n) = if n = 0 then none else some (n : ℚ) := by
  simp only [salaryAmount]
  rcases eq_or_ne n 0 with h0 | h0
  · simp [h0]
  · simp [h0]

/-- C8: `hours_old` has no effect on the outgoing request: two calls to
`format_reed_search_params` that differ only in `hours_old` (including `none`)
produce identical query-parameter dictionaries. -/
theorem reed_c8_hours_old_no_effect (keywords location_name : Option String)
    (distance : Nat) (is_remote : Bool) (job_type : Option JobType)
    (hours_old₁ hours_old₂ : Option Nat) (results_to_take results_to_skip : Nat) :
    format_reed_search_params keywords location_name distance is_remote
        job_type hours_old₁ results_to_take results_to_skip =
      format_reed_search_params keywords location_name distance is_remote
        job_type hours_old₂ results_to_take results_to_skip := rfl

/-- C6: job-type flag mapping of `format_reed_search_params`: full-time
sets both `fullTime` and `permanent`; part-time sets only `partTime`;
contract sets only `contract`; temporary sets only `temp`; with no job type
none of the five flags is set. -/
theorem reed_c6_job_type_flags (keywords location_name : Option String)
    (distance : Nat) (is_remote : Bool) (job_type : Option JobType)
    (hours_old : Option Nat) (results_to_take results_to_skip : Nat)
    (ps : ReedParams)
    (hps : ps = format_reed_search_params keywords location_name distance
      is_remote job_type hours_old results_to_take results_to_skip) :
    (job_type = some JobType.full_time →
      ps.fullTime = some "true" ∧ ps.permanent = some "true" ∧
      ps.partTime = none ∧ ps.contractParam = none ∧ ps.temp = none) ∧
    (job_type = some JobType.part_time →
      ps.partTime = some "true" ∧ ps.fullTime = none ∧ ps.permanent = none ∧
      ps.contractParam = none ∧ ps.temp = none) ∧
    (job_type = some JobType.contract →
      ps.contractParam = some "true" ∧ ps.fullTime = none ∧
      ps.permanent = none ∧ ps.partTime = none ∧ ps.temp = none) ∧
    (job_type = some JobType.temporary →
      ps.temp = some "true" ∧ ps.fullTime = none ∧ ps.permanent = none ∧
      ps.partTime = none ∧ ps.contractParam = none) ∧
    (job_type = none →
      ps.fullTime = none ∧ ps.permanent = none ∧ ps.partTime = none ∧
      ps.contractParam = none ∧ ps.temp = none) := by
  subst hps
  refine ⟨?_, ?_, ?_, ?_, ?_⟩ <;> intro h <;> subst h <;>
    simp [format_reed_search_params]

/-- Witness for C6: the full-time and part-time cases at concrete arguments. -/
theorem reed_c6_job_type_flags_witness :
    (format_reed_search_params none none 10 false (some JobType.full_time)
        none 15 0).fullTime = some "true" ∧
    (format_reed_search_params none none 10 false (some JobType.full_time)
        none 15 0).permanent = some "true" ∧
    (format_reed_search_params none none 10 false (some JobType.part_time)
        none 15 0).partTime = some "true" ∧
    (format_reed_search_params none none 10 false (some JobType.part_time)
        none 15 0).fullTime = none := by
  have h1 := (reed_c6_job_type_flags none none 10 false
    (some JobType.full_time) none 15 0 _ rfl).1 rfl
  have h2 := (reed_c6_job_type_flags none none 10 false
    (some JobType.part_time) none 15 0 _ rfl).2.1 rfl
  exact ⟨h1.1, h1.2.1, h2.1, h2.2.1⟩

/-- C9: every posting produced by `_parse_job` carries no job type and no
date-posted.  (The code builds the empty job-type list and stores it through
`job_type_list if job_type_list else None`, i.e. as the absence marker.) -/
theorem reed_c9_job_type_date (job_data : RawJob) (p : JobPost)
    (h : parse_job job_data = some p) :
    p.job_type = none ∧ p.date_posted = none := by
  have hf := parse_job_some_fields job_data p h
  exact ⟨hf.2.2.2.1, hf.2.2.2.2⟩

/-- Witness for C9 at a concrete record. -/
theorem reed_c9_job_type_date_witness :
    ∃ p, parse_job goodJob = some p ∧ p.job_type = none ∧
      p.date_posted = none := by
  have hs : (parse_job goodJob).isSome = true := by decide
  have heq : parse_job goodJob = some ((parse_job goodJob).get hs) :=
    (Option.some_get hs).symm
  have h := reed_c9_job_type_date goodJob _ heq
  exact ⟨_, heq, h.1, h.2⟩

/-- C10: every exception escaping the `try` body of `_fetch_jobs`
(transport error, HTTP error status, JSON decode failure, `TypeError` on a
non-sequence `results` value) is caught by one of its two handlers and turned
into the stop-pagination signal `None`; the call never raises. -/
theorem reed_c10_fetch_total (resp : Response) (e : Exn)
    (h : fetch_jobs_attempt resp = Except.error e) : fetch_jobs resp = none := by
  unfold fetch_jobs
  rw [h]

/-- Witness for C10: a malformed JSON body yields `none`. -/
theorem reed_c10_fetch_total_witness :
    fetch_jobs (Response.ok 200 RBody.malformed) = none :=
  reed_c10_fetch_total (Response.ok 200 RBody.malformed) Exn.requestExn (by rfl)

/-- C7: both failure modes of a page fetch — a transport error raised by
`session.get` and an HTTP error status (the `raise_for_status` path,
status ≥ 400, whatever the body) — are signalled as `None` by `_fetch_jobs`
(never an exception), and a `None` batch makes the pagination loop stop at
once, returning exactly the postings accumulated before the failure,
regardless of any later vendor responses. -/
theorem reed_c7_transport_failure (results_wanted results_per_page
    total_fetched results_to_skip : Nat) (job_list : List JobPost)
    (rest : List (Option (List RawJob)))
    (h : total_fetched < results_wanted) :
    fetch_jobs Response.transportError = none ∧
    (∀ (status : Nat) (body : RBody), 400 ≤ status →
      fetch_jobs (Response.ok status body) = none) ∧
    scrapeLoop results_wanted results_per_page (none :: rest) total_fetched
      results_to_skip job_list = job_list := by
  refine ⟨rfl, ?_, ?_⟩
  · intro status body hstatus
    simp [fetch_jobs, fetch_jobs_attempt, if_pos hstatus]
  · simp only [scrapeLoop, if_neg (Nat.not_le.mpr h)]

/-- Witness for C7: a transport error and an HTTP 500 both give `none`, and
the loop returns the accumulator at a concrete state. -/
theorem reed_c7_transport_failure_witness :
    fetch_jobs Response.transportError = none ∧
    fetch_jobs (Response.ok 500 (RBody.jlist [])) = none ∧
    scrapeLoop 5 5 [none, some [goodJob]] 0 0 [] = [] := by
  have h := reed_c7_transport_failure 5 5 0 0 [] [some [goodJob]] (by decide)
  exact ⟨h.1, h.2.1 500 (RBody.jlist []) (by decide), h.2.2⟩

/-- Counterexample to C4 as stated: on a location with two commas the code
sets the region to the *second comma-separated segment* only, not to the
entire text after the first comma. -/
theorem reed_c4_counterexample :
    parse_location (some "Manchester, Greater Manchester, UK") =
      some { city := "Manchester", state := some "Greater Manchester",
             country := Country.uk } ∧
    parse_location (some "Manchester, Greater Manchester, UK") ≠
      some { city := "Manchester", state := some "Greater Manchester, UK",
             country := Country.uk } := by
  exact ⟨by decide, by decide⟩

/-- C4 (amended): for every non-empty location string, the city is the
first comma-separated segment (trimmed) and the region is the second
comma-separated segment (trimmed) when one exists — any text after a second
comma is discarded — and the country is always UK. -/
theorem reed_c4_location_parsing (s : String) (h : s ≠ "") :
    (∀ a, (splitOnChar ',' (pyStrip s).data).map String.mk = [a] →
      parse_location (some s) =
        some { city := pyStrip a, state := none, country := Country.uk }) ∧
    (∀ a b rest,
        (splitOnChar ',' (pyStrip s).data).map String.mk = a :: b :: rest →
      parse_location (some s) =
        some { city := pyStrip a, state := some (pyStrip b),
               country := Country.uk }) := by
  constructor
  · intro a ha
    simp [parse_location, h, ha]
  · intro a b rest hab
    simp [parse_location, h, hab]

/-- Witness for C4 (amended): the spec's two worked examples. -/
theorem reed_c4_location_parsing_witness :
    parse_location (some "Manchester, Greater Manchester") =
      some { city := "Manchester", state := some "Greater Manchester",
             country := Country.uk } ∧
    parse_location (some "Manchester") =
      some { city := "Manchester", state := none, country := Country.uk } :=
  ⟨(reed_c4_location_parsing "Manchester, Greater Manchester" (by decide)).2
      "Manchester" " Greater Manchester" [] (by decide),
   (reed_c4_location_parsing "Manchester" (by decide)).1 "Manchester"
      (by decide)⟩

/-- Counterexample to C5 as stated: a supplied `minimumSalary = 0` does
create a compensation, but its `min_amount` is `None` (Python truthiness in
`float(min_salary) if min_salary else None`), not the cast `0.0` the claim
requires. -/
theorem reed_c5_counterexample :
    zeroSalaryJob.minimumSalary = some 0 ∧
    (parse_job zeroSalaryJob).map JobPost.compensation =
      some (some { min_amount := none, max_amount := none, currency := "GBP",
                   interval := CompensationInterval.yearly }) ∧
    (none : Option ℚ) ≠ some ((0 : Int) : ℚ) :=
  ⟨rfl, by decide, fun hco => Option.noConfusion hco⟩

/-- C5 (amended): compensation is `none` iff both salary fields are
absent; otherwise it is present with currency GBP and yearly interval, and
each amount is the supplied salary cast to a float when that salary is present
and non-zero, `none` when it is absent — and also `none` when it is the
(Python-falsy) integer `0`. -/
theorem reed_c5_compensation (job_data : RawJob) (p : JobPost)
    (h : parse_job job_data = some p) :
    (job_data.minimumSalary = none ∧ job_data.maximumSalary = none →
      p.compensation = none) ∧
    (job_data.minimumSalary ≠ none ∨ job_data.maximumSalary ≠ none →
      ∃ c, p.compensation = some c ∧ c.currency = "GBP" ∧
        c.interval = CompensationInterval.yearly ∧
        (∀ n : Int, job_data.minimumSalary = some n →
          c.min_amount = if n = 0 then none else some (n : ℚ)) ∧
        (job_data.minimumSalary = none → c.min_amount = none) ∧
        (∀ n : Int, job_data.maximumSalary = some n →
          c.max_amount = if n = 0 then none else some (n : ℚ)) ∧
        (job_data.maximumSalary = none → c.max_amount = none)) := by
  have hcomp := (parse_job_some_fields job_data p h).2.2.1
  constructor
  · intro ⟨h1, h2⟩
    rw [hcomp, h1, h2]
    simp
  · intro hsome
    have hcond : job_data.minimumSalary.isSome ∨ job_data.maximumSalary.isSome := by
      rcases hsome with h1 | h1
      · exact Or.inl (Option.isSome_iff_ne_none.mpr h1)
      · exact Or.inr (Option.isSome_iff_ne_none.mpr h1)
    rw [hcomp, if_pos hcond]
    refine ⟨_, rfl, rfl, rfl, ?_, ?_, ?_, ?_⟩
    · intro n hn
      rw [hn, salaryAmount_some]
    · intro hn
      rw [hn]
      rfl
    · intro n hn
      rw [hn, salaryAmount_some]
    · intro hn
      rw [hn]
      rfl

/-- Witness for C5 (amended): `minimumSalary = 30000` alone gives a GBP yearly
compensation with `min_amount = 30000.0` and `max_amount = none`. -/
theorem reed_c5_compensation_witness :
    ∃ p c, parse_job salaryJob = some p ∧ p.compensation = some c ∧
      c.currency = "GBP" ∧ c.interval = CompensationInterval.yearly ∧
      c.min_amount = some ((30000 : Int) : ℚ) ∧ c.max_amount = none := by
  have hs : (parse_job salaryJob).isSome = true := by decide
  have heq : parse_job salaryJob = some ((parse_job salaryJob).get hs) :=
    (Option.some_get hs).symm
  obtain ⟨c, hc, hcur, hint, hminS, _, _, hmaxN⟩ :=
    (reed_c5_compensation salaryJob _ heq).2 (Or.inl (Option.some_ne_none _))
  refine ⟨_, c, heq, hc, hcur, hint, ?_, hmaxN rfl⟩
  have h30 := hminS 30000 rfl
  rw [if_neg (by norm_num)] at h30
  exact h30

/-- Helper: the per-batch loop never counts past the wanted total (it breaks
as soon as the count reaches it). -/
theorem processBatch_fst_le (w : Nat) (batch : List RawJob) :
    ∀ total acc, total < w → (processBatch w total acc batch).1 ≤ w := by
  induction batch with
  | nil =>
    intro total acc h
    exact Nat.le_of_lt h
  | cons j rest ih =>
    intro total acc h
    cases hj : parse_job j with
    | some q =>
      simp only [processBatch, hj]
      by_cases hw : w ≤ total + 1
      · rw [if_pos hw]
        exact h
      · rw [if_neg hw]
        exact ih (total + 1) (acc ++ [q]) (by omega)
    | none =>
      simp only [processBatch, hj]
      exact ih total acc h

/-- Helper: the per-batch loop appends exactly one posting per increment of
the counter. -/
theorem processBatch_len (w : Nat) (batch : List RawJob) :
    ∀ total acc, (processBatch w total acc batch).2.length + total =
      (processBatch w total acc batch).1 + acc.length := by
  induction batch with
  | nil =>
    intro total acc
    simp only [processBatch]
    omega
  | cons j rest ih =>
    intro total acc
    cases hj : parse_job j with
    | some q =>
      simp only [processBatch, hj]
      by_cases hw : w ≤ total + 1
      · rw [if_pos hw]
        show (acc ++ [q]).length + total = (total + 1) + acc.length
        rw [List.length_append, List.length_singleton]
        omega
      · rw [if_neg hw]
        have h2 := ih (total + 1) (acc ++ [q])
        rw [List.length_append, List.length_singleton] at h2
        omega
    | none =>
      simp only [processBatch, hj]
      exact ih total acc

/-- Helper: every posting the per-batch loop adds comes from `_parse_job` on
some raw record. -/
theorem processBatch_mem (w : Nat) (batch : List RawJob) :
    ∀ total acc p, p ∈ (processBatch w total acc batch).2 →
      p ∈ acc ∨ ∃ r, parse_job r = some p := by
  induction batch with
  | nil =>
    intro total acc p hp
    exact Or.inl hp
  | cons j rest ih =>
    intro total acc p hp
    cases hj : parse_job j with
    | some q =>
      simp only [processBatch, hj] at hp
      by_cases hw : w ≤ total + 1
      · rw [if_pos hw] at hp
        rcases List.mem_append.mp hp with hmem | hmem
        · exact Or.inl hmem
        · have hpq : p = q := List.mem_singleton.mp hmem
          exact Or.inr ⟨j, by rw [hj, hpq]⟩
      · rw [if_neg hw] at hp
        rcases ih (total + 1) (acc ++ [q]) p hp with hmem | hex
        · rcases List.mem_append.mp hmem with h1 | h1
          · exact Or.inl h1
          · have hpq : p = q := List.mem_singleton.mp h1
            exact Or.inr ⟨j, by rw [hj, hpq]⟩
        · exact Or.inr hex
    | none =>
      simp only [processBatch, hj] at hp
      exact ih total acc p hp

/-- Helper: the pagination loop keeps the posting count within the wanted
total. -/
theorem scrapeLoop_len_le (w pp : Nat)
    (responses : List (Option (List RawJob))) :
    ∀ total skip acc, acc.length = total → total ≤ w →
      (scrapeLoop w pp responses total skip acc).length ≤ w := by
  induction responses with
  | nil =>
    intro total skip acc h1 h2
    simpa [scrapeLoop, h1] using h2
  | cons b rest ih =>
    intro total skip acc h1 h2
    by_cases hw : w ≤ total
    · simp only [scrapeLoop, if_pos hw]
      rw [h1]
      exact h2
    · cases b with
      | none =>
        simp only [scrapeLoop, if_neg hw]
        rw [h1]
        exact h2
      | some batch =>
        simp only [scrapeLoop, if_neg hw]
        by_cases hemp : batch.isEmpty
        · rw [if_pos hemp, h1]
          exact h2
        · rw [if_neg hemp]
          by_cases hshort : batch.length < min pp (w - total)
          · rw [if_pos hshort]
            have hle := processBatch_fst_le w batch total acc (by omega)
            have hlen := processBatch_len w batch total acc
            omega
          · rw [if_neg hshort]
            apply ih
            · have hlen := processBatch_len w batch total acc
              omega
            · exact processBatch_fst_le w batch total acc (by omega)

/-- Helper: every posting the pagination loop returns is in the accumulator
or produced by `_parse_job`. -/
theorem scrapeLoop_mem (w pp : Nat)
    (responses : List (Option (List RawJob))) :
    ∀ total skip acc p, p ∈ scrapeLoop w pp responses total skip acc →
      p ∈ acc ∨ ∃ r, parse_job r = some p := by
  induction responses with
  | nil =>
    intro total skip acc p hp
    exact Or.inl hp
  | cons b rest ih =>
    intro total skip acc p hp
    by_cases hw : w ≤ total
    · simp only [scrapeLoop, if_pos hw] at hp
      exact Or.inl hp
    · cases b with
      | none =>
        simp only [scrapeLoop, if_neg hw] at hp
        exact Or.inl hp
      | some batch =>
        simp only [scrapeLoop, if_neg hw] at hp
        by_cases hemp : batch.isEmpty
        · rw [if_pos hemp] at hp
          exact Or.inl hp
        · rw [if_neg hemp] at hp
          by_cases hshort : batch.length < min pp (w - total)
          · rw [if_pos hshort] at hp
            exact processBatch_mem w batch total acc p hp
          · rw [if_neg hshort] at hp
            rcases ih _ _ _ p hp with hmem | hex
            · exact processBatch_mem w batch total acc p hmem
            · exact Or.inr hex

/-- Counterexample to C1 as stated: with an explicit `resultsWanted = 0`
the code (via `results_wanted or 15`, Python truthiness) treats the request as
unset and returns up to 15 postings — here 1 posting, exceeding N = 0. -/
theorem reed_c1_counterexample :
    ¬ ((scrape (some 0) none
        [Response.ok 200 (RBody.jlist [goodJob])]).length ≤ 0) := by
  decide

/-- C1 (amended): `scrape` returns at most N postings for every input
with `resultsWanted = N ≥ 1`, and at most 15 when `resultsWanted` is unset or
is the (Python-falsy) 0 — for every sequence of vendor page responses. -/
theorem reed_c1_results_bound (results_wanted? offset? : Option Nat)
    (responses : List Response) :
    (scrape results_wanted? offset? responses).length ≤
      (match results_wanted? with
       | some n => if n ≠ 0 then n else 15
       | none => 15) := by
  unfold scrape
  exact scrapeLoop_len_le _ _ _ 0 _ [] rfl (Nat.zero_le _)

/-- C2: a raw record whose `jobTitle` is absent or blank after trimming
is dropped by `_parse_job`, and every posting in the output of `scrape` has a
non-empty title. -/
theorem reed_c2_title_nonempty :
    (∀ job_data : RawJob, pyStrip (job_data.jobTitle.getD "") = "" →
      parse_job job_data = none) ∧
    (∀ (results_wanted? offset? : Option Nat) (responses : List Response)
        (p : JobPost), p ∈ scrape results_wanted? offset? responses →
      p.title ≠ "") := by
  constructor
  · exact parse_job_blank
  · intro results_wanted? offset? responses p hp
    simp only [scrape] at hp
    rcases scrapeLoop_mem _ _ _ _ _ _ p hp with hmem | ⟨r, hr⟩
    · exact absurd hmem (List.not_mem_nil p)
    · exact (parse_job_some_fields r p hr).2.1

/-- Witness for C2: a blank-title record is dropped; a run of `scrape`
produces a posting with a non-empty title. -/
theorem reed_c2_title_nonempty_witness :
    parse_job blankTitleJob = none ∧
    ∃ p, p ∈ scrape (some 1) none [Response.ok 200 (RBody.jlist [goodJob])] ∧
      p.title ≠ "" := by
  have hne : scrape (some 1) none
      [Response.ok 200 (RBody.jlist [goodJob])] ≠ [] := by decide
  exact ⟨reed_c2_title_nonempty.1 blankTitleJob (by decide),
    ⟨_, List.head_mem hne,
      reed_c2_title_nonempty.2 (some 1) none _ _ (List.head_mem hne)⟩⟩

/-- C3: if on an iteration of the pagination loop (at any reachable or
unreachable loop state with the wanted count not yet met) the vendor page
holds fewer raw records than that iteration's page size, the loop returns the
postings accumulated through that batch and never issues another request: the
result does not depend on the remaining scripted responses. -/
theorem reed_c3_short_page_stops (results_wanted results_per_page
    total_fetched results_to_skip : Nat) (job_list : List JobPost)
    (jobs_batch : List RawJob) (rest rest' : List (Option (List RawJob)))
    (h1 : total_fetched < results_wanted)
    (h2 : jobs_batch.length <
      min results_per_page (results_wanted - total_fetched)) :
    scrapeLoop results_wanted results_per_page (some jobs_batch :: rest)
        total_fetched results_to_skip job_list =
      (if jobs_batch.isEmpty then job_list
       else (processBatch results_wanted total_fetched job_list
         jobs_batch).2) ∧
    scrapeLoop results_wanted results_per_page (some jobs_batch :: rest)
        total_fetched results_to_skip job_list =
      scrapeLoop results_wanted results_per_page (some jobs_batch :: rest')
        total_fetched results_to_skip job_list := by
  have key : ∀ rs : List (Option (List RawJob)),
      scrapeLoop results_wanted results_per_page (some jobs_batch :: rs)
          total_fetched results_to_skip job_list =
        (if jobs_batch.isEmpty then job_list
         else (processBatch results_wanted total_fetched job_list
           jobs_batch).2) := by
    intro rs
    simp only [scrapeLoop, if_neg (Nat.not_le.mpr h1)]
    by_cases hemp : jobs_batch.isEmpty
    · rw [if_pos hemp, if_pos hemp]
    · rw [if_neg hemp, if_neg hemp, if_pos h2]
  exact ⟨key rest, (key rest).trans (key rest').symm⟩

/-- Witness for C3: a 1-record page against a page size of 10 stops the loop;
swapping the unread tail of the script changes nothing. -/
theorem reed_c3_short_page_stops_witness :
    scrapeLoop 10 10 [some [goodJob], some [goodJob]] 0 0 [] =
      scrapeLoop 10 10 [some [goodJob], none] 0 0 [] :=
  (reed_c3_short_page_stops 10 10 0 0 [] [goodJob] [some [goodJob]] [none]
    (by decide) (by decide)).2

end Reed
